import Mathlib

/-!
Verification of `misc/python/materialize/checks/owners.py` (the `Owners`
check) against its specification: the version-gated three-phase check
protocol (initialize → manipulate* → validate), object creation/teardown
templates, and version-gated expected output.
-/

/-- Modelled from the spec: `MzVersion` lives in `materialize.util`, which is
not part of the repository files given; spec §3 describes it as an ordered
triple (major, minor, patch) plus an optional pre-release marker, comparing
by numeric triple first, then pre-release status (a pre-release of version V
sorts before the released V).  The `dev` flag records the `-dev` pre-release
marker of spec §6's version string format `MAJOR.MINOR.PATCH[-dev]`. -/
structure MzVersion where
  major : Nat
  minor : Nat
  patch : Nat
  dev : Bool
  deriving DecidableEq

/-- Modelled from the spec: §4.1 `compare(a, b) -> \x7bLT, EQ, GT\x7d` is a total
order; §3: numeric triple first, then pre-release status, where the
pre-release of V sorts before the released V. -/
def MzVersion.cmp (a b : MzVersion) : Ordering :=
  if a.major < b.major then Ordering.lt
  else if b.major < a.major then Ordering.gt
  else if a.minor < b.minor then Ordering.lt
  else if b.minor < a.minor then Ordering.gt
  else if a.patch < b.patch then Ordering.lt
  else if b.patch < a.patch then Ordering.gt
  else if a.dev && !b.dev then Ordering.lt
  else if b.dev && !a.dev then Ordering.gt
  else Ordering.eq

/-- The strict order `a < b` of versions, from the spec's total order. -/
def MzVersion.ltb (a b : MzVersion) : Bool :=
  MzVersion.cmp a b == Ordering.lt

/-- The order `a >= b` of versions: in the spec's total order this is the
negation of `a < b`. -/
def MzVersion.geb (a b : MzVersion) : Bool :=
  !(MzVersion.ltb a b)

/-- Modelled from the spec: the result of `MzVersion.parse "0.47.0-dev"`
(spec §6 version string format, the `-dev` marker setting the pre-release
flag). -/
def v047dev : MzVersion := { major := 0, minor := 47, patch := 0, dev := true }

/-- Modelled from the spec: the result of `MzVersion.parse "0.48.0-dev"`. -/
def v048dev : MzVersion := { major := 0, minor := 48, patch := 0, dev := true }

/-- `Owners._can_run`: `self.base_version >= MzVersion.parse("0.47.0-dev")`. -/
def canRun (v : MzVersion) : Bool :=
  MzVersion.geb v v047dev

/-- A specification-side reading of "version a sorts strictly before version
b": lexicographic on (major, minor, patch), ties broken by pre-release
status with the pre-release first.  Stated as a `Prop` independent of the
executable comparator, for checking the comparator against the spec. -/
def vltSpec (a b : MzVersion) : Prop :=
  a.major < b.major
  ∨ (a.major = b.major
     ∧ (a.minor < b.minor
        ∨ (a.minor = b.minor
           ∧ (a.patch < b.patch
              ∨ (a.patch = b.patch ∧ a.dev = true ∧ b.dev = false)))))

theorem mzcmp_lt_iff (a b : MzVersion) :
    MzVersion.cmp a b = Ordering.lt ↔ vltSpec a b := by
  rcases a with ⟨am, ai, ap, ad⟩
  rcases b with ⟨bm, bi, bp, bd⟩
  cases ad <;> cases bd <;>
    simp only [MzVersion.cmp, vltSpec, Bool.and_true, Bool.and_false,
      Bool.true_and, Bool.false_and, Bool.not_true, Bool.not_false] <;>
    split_ifs <;>
    (try simp_all) <;>
    omega

theorem mzltb_iff (a b : MzVersion) :
    MzVersion.ltb a b = true ↔ vltSpec a b := by
  rw [← mzcmp_lt_iff a b]
  unfold MzVersion.ltb
  cases hc : MzVersion.cmp a b <;> decide

/-- The kinds of catalog object the check creates: one constructor per
`CREATE` statement kind in `Owners._create_objects` (`owners.py` lines
18-43).  `source`, `sink` and `cluster` are the expensive kinds. -/
inductive ObjKind where
  | database
  | schema
  | kafkaConn
  | csrConn
  | typ
  | table
  | index
  | view
  | matView
  | secret
  | source
  | sink
  | cluster
  deriving DecidableEq

/-- The name root each kind's objects use in `owners.py`: the object named
under discriminator `i` is this root with the decimal numeral of `i`
appended (the f-string interpolation `owner_db{i}` and so on). -/
def ObjKind.nameRoot : ObjKind → String
  | ObjKind.database => "owner_db"
  | ObjKind.schema => "owner_schema"
  | ObjKind.kafkaConn => "owner_kafka_conn"
  | ObjKind.csrConn => "owner_csr_conn"
  | ObjKind.typ => "owner_type"
  | ObjKind.table => "owner_t"
  | ObjKind.index => "owner_i"
  | ObjKind.view => "owner_v"
  | ObjKind.matView => "owner_mv"
  | ObjKind.secret => "owner_secret"
  | ObjKind.source => "owner_source"
  | ObjKind.sink => "owner_sink"
  | ObjKind.cluster => "owner_cluster"

/-- The SQL keyword used to drop objects of a kind (`owners.py` lines 45-59). -/
def ObjKind.dropWord : ObjKind → String
  | ObjKind.database => "DATABASE"
  | ObjKind.schema => "SCHEMA"
  | ObjKind.kafkaConn => "CONNECTION"
  | ObjKind.csrConn => "CONNECTION"
  | ObjKind.typ => "TYPE"
  | ObjKind.table => "TABLE"
  | ObjKind.index => "INDEX"
  | ObjKind.view => "VIEW"
  | ObjKind.matView => "MATERIALIZED VIEW"
  | ObjKind.secret => "SECRET"
  | ObjKind.source => "SOURCE"
  | ObjKind.sink => "SINK"
  | ObjKind.cluster => "CLUSTER"

/-- The name of the object of kind `k` created under discriminator `i`:
the kind's name root with the decimal numeral of `i` appended, exactly as
the f-strings of `owners.py` build it. -/
def objName (k : ObjKind) (i : Nat) : String :=
  ObjKind.nameRoot k ++ Nat.repr i

/-- The replica created inside `CREATE CLUSTER owner_cluster{i} REPLICAS
(owner_cluster_r{i} (SIZE 4))` at `owners.py` line 39. -/
def replicaName (i : Nat) : String :=
  "owner_cluster_r" ++ Nat.repr i

/-- One command block of a testdrive script, as `owners.py` emits them:
the `$ postgres-execute connection=...` header switching the acting role,
a `CREATE` statement for an object kind under a discriminator, a
`> CREATE ROLE`, a `> DROP`, or an assertion block.  An assertion block
keeps its query/meta-command line and the (object name, expected owner)
cells of its expected-output table; the table's decoration (headers, dash
rules, the other literal columns) carries no owner information and is
elided. -/
inductive Stmt where
  | execAs (role : String)
  | create (k : ObjKind) (i : Nat)
  | createRole (name : String)
  | dropObj (k : ObjKind) (i : Nat)
  | assertBlock (query : String) (rows : List (String × String))
  deriving DecidableEq

/-- The exact statement text of a `CREATE` emitted by
`Owners._create_objects` for kind `k` under discriminator `i`
(`owners.py` lines 20-41). -/
def createText (i : Nat) : ObjKind → String
  | ObjKind.database => "CREATE DATABASE " ++ objName ObjKind.database i
  | ObjKind.schema => "CREATE SCHEMA " ++ objName ObjKind.schema i
  | ObjKind.kafkaConn =>
      "CREATE CONNECTION " ++ objName ObjKind.kafkaConn i
        ++ " FOR KAFKA BROKER '$\x7btestdrive.kafka-addr\x7d'"
  | ObjKind.csrConn =>
      "CREATE CONNECTION " ++ objName ObjKind.csrConn i
        ++ " FOR CONFLUENT SCHEMA REGISTRY URL '$\x7btestdrive.schema-registry-url\x7d'"
  | ObjKind.typ =>
      "CREATE TYPE " ++ objName ObjKind.typ i ++ " AS LIST (ELEMENT TYPE = text)"
  | ObjKind.table =>
      "CREATE TABLE " ++ objName ObjKind.table i ++ " (c1 int, c2 "
        ++ objName ObjKind.typ i ++ ")"
  | ObjKind.index =>
      "CREATE INDEX " ++ objName ObjKind.index i ++ " ON "
        ++ objName ObjKind.table i ++ " (c2)"
  | ObjKind.view =>
      "CREATE VIEW " ++ objName ObjKind.view i ++ " AS SELECT * FROM "
        ++ objName ObjKind.table i
  | ObjKind.matView =>
      "CREATE MATERIALIZED VIEW " ++ objName ObjKind.matView i
        ++ " AS SELECT * FROM " ++ objName ObjKind.table i
  | ObjKind.secret =>
      "CREATE SECRET " ++ objName ObjKind.secret i ++ " AS 'MY_SECRET'"
  | ObjKind.source =>
      "CREATE SOURCE " ++ objName ObjKind.source i
        ++ " FROM LOAD GENERATOR COUNTER (SCALE FACTOR 0.01)"
  | ObjKind.sink =>
      "CREATE SINK " ++ objName ObjKind.sink i ++ " FROM "
        ++ objName ObjKind.matView i ++ " INTO KAFKA CONNECTION "
        ++ objName ObjKind.kafkaConn i ++ " (TOPIC 'sink-sink-owner" ++ Nat.repr i
        ++ "') FORMAT AVRO USING CONFLUENT SCHEMA REGISTRY CONNECTION "
        ++ objName ObjKind.csrConn i ++ " ENVELOPE DEBEZIUM"
  | ObjKind.cluster =>
      "CREATE CLUSTER " ++ objName ObjKind.cluster i ++ " REPLICAS ("
        ++ replicaName i ++ " (SIZE '4'))"

/-- The text of one command block (for assertion blocks, the query line;
their expected tables are kept as structured rows on the constructor). -/
def Stmt.text : Stmt → String
  | Stmt.execAs role =>
      "$ postgres-execute connection=postgres://" ++ role
        ++ "@materialized:6875/materialize"
  | Stmt.create k i => createText i k
  | Stmt.createRole name => "> CREATE ROLE " ++ name
  | Stmt.dropObj k i => "> DROP " ++ ObjKind.dropWord k ++ " " ++ objName k i
  | Stmt.assertBlock query _ => query

/-- `Owners._create_objects(role, i, expensive)` (`owners.py` lines 18-43):
the `$ postgres-execute` header acting as `role`, then one `CREATE` per
non-expensive kind in source order; with `expensive` set, also the source,
sink and cluster creations. -/
def createObjects (role : String) (i : Nat) (expensive : Bool) : List Stmt :=
  [Stmt.execAs role,
   Stmt.create ObjKind.database i,
   Stmt.create ObjKind.schema i,
   Stmt.create ObjKind.kafkaConn i,
   Stmt.create ObjKind.csrConn i,
   Stmt.create ObjKind.typ i,
   Stmt.create ObjKind.table i,
   Stmt.create ObjKind.index i,
   Stmt.create ObjKind.view i,
   Stmt.create ObjKind.matView i,
   Stmt.create ObjKind.secret i]
  ++ (if expensive then
        [Stmt.create ObjKind.source i,
         Stmt.create ObjKind.sink i,
         Stmt.create ObjKind.cluster i]
      else [])

/-- `Owners._drop_objects(i)` (`owners.py` lines 45-59): the ten `> DROP`
statements for the non-expensive objects of discriminator `i`, in source
order. -/
def dropObjects (i : Nat) : List Stmt :=
  [Stmt.dropObj ObjKind.secret i,
   Stmt.dropObj ObjKind.matView i,
   Stmt.dropObj ObjKind.view i,
   Stmt.dropObj ObjKind.index i,
   Stmt.dropObj ObjKind.table i,
   Stmt.dropObj ObjKind.typ i,
   Stmt.dropObj ObjKind.csrConn i,
   Stmt.dropObj ObjKind.kafkaConn i,
   Stmt.dropObj ObjKind.schema i,
   Stmt.dropObj ObjKind.database i]

/-- `Owners.initialize` (`owners.py` lines 64-68).  The parameter is the
check's `base_version`, available through `self` but unused here. -/
def initializeScript (_v : MzVersion) : List Stmt :=
  Stmt.createRole "owner_role_01" :: createObjects "owner_role_01" 1 true

/-- `Owners.manipulate` (`owners.py` lines 70-80): two testdrive scripts.
The parameter is the check's `base_version`, available through `self` but
unused here. -/
def manipulateScripts (_v : MzVersion) : List (List Stmt) :=
  [createObjects "owner_role_01" 2 false ++ [Stmt.createRole "owner_role_02"],
   createObjects "owner_role_01" 3 false ++ createObjects "owner_role_02" 4 false
     ++ [Stmt.createRole "owner_role_03"]]

/-- The local `owner1` of `Owners.validate` (`owners.py` lines 83-87):
`"default_owner"` when `self.base_version < MzVersion.parse("0.48.0-dev")`,
else `"owner_role_01"`. -/
def owner1 (v : MzVersion) : String :=
  if MzVersion.ltb v v048dev then "default_owner" else "owner_role_01"

/-- The script body of `Owners.validate` (`owners.py` lines 89-201) as a
function of the interpolated `owner1` value: create discriminators 5-7
under the three roles, assert the twelve expected-output blocks, then drop
discriminators 5-7. -/
def validateBody (o1 : String) : List Stmt :=
  createObjects "owner_role_01" 5 false
  ++ createObjects "owner_role_02" 6 false
  ++ createObjects "owner_role_03" 7 false
  ++ [Stmt.assertBlock "$ psql-execute command=\"\\l owner_db*\""
        [("owner_db1", o1), ("owner_db2", o1), ("owner_db3", "owner_role_01"),
         ("owner_db4", "owner_role_02"), ("owner_db5", "owner_role_01"),
         ("owner_db6", "owner_role_02"), ("owner_db7", "owner_role_03")],
      Stmt.assertBlock "$ psql-execute command=\"\\dn owner_schema*\""
        [("owner_schema1", o1), ("owner_schema2", o1),
         ("owner_schema3", "owner_role_01"), ("owner_schema4", "owner_role_02"),
         ("owner_schema5", "owner_role_01"), ("owner_schema6", "owner_role_02"),
         ("owner_schema7", "owner_role_03")],
      Stmt.assertBlock "$ psql-execute command=\"\\dt owner_t*\""
        [("owner_t1", o1), ("owner_t2", o1), ("owner_t3", "owner_role_01"),
         ("owner_t4", "owner_role_02"), ("owner_t5", "owner_role_01"),
         ("owner_t6", "owner_role_02"), ("owner_t7", "owner_role_03")],
      Stmt.assertBlock "$ psql-execute command=\"\\di owner_i*\""
        [("owner_i1", o1), ("owner_i2", o1), ("owner_i3", "owner_role_01"),
         ("owner_i4", "owner_role_02"), ("owner_i5", "owner_role_01"),
         ("owner_i6", "owner_role_02"), ("owner_i7", "owner_role_03")],
      Stmt.assertBlock "$ psql-execute command=\"\\dv owner_v*\""
        [("owner_v1", o1), ("owner_v2", o1), ("owner_v3", "owner_role_01"),
         ("owner_v4", "owner_role_02"), ("owner_v5", "owner_role_01"),
         ("owner_v6", "owner_role_02"), ("owner_v7", "owner_role_03")],
      Stmt.assertBlock "$ psql-execute command=\"\\dmv owner_mv*\""
        [("owner_mv1", o1), ("owner_mv2", o1), ("owner_mv3", "owner_role_01"),
         ("owner_mv4", "owner_role_02"), ("owner_mv5", "owner_role_01"),
         ("owner_mv6", "owner_role_02"), ("owner_mv7", "owner_role_03")],
      Stmt.assertBlock
        "> SELECT mz_types.name, mz_roles.name FROM mz_types JOIN mz_roles ON mz_types.owner_id = mz_roles.id WHERE mz_types.name LIKE 'owner_type%'"
        [("owner_type1", o1), ("owner_type2", o1), ("owner_type3", "owner_role_01"),
         ("owner_type4", "owner_role_02"), ("owner_type5", "owner_role_01"),
         ("owner_type6", "owner_role_02"), ("owner_type7", "owner_role_03")],
      Stmt.assertBlock
        "> SELECT mz_secrets.name, mz_roles.name FROM mz_secrets JOIN mz_roles ON mz_secrets.owner_id = mz_roles.id WHERE mz_secrets.name LIKE 'owner_secret%'"
        [("owner_secret1", o1), ("owner_secret2", o1),
         ("owner_secret3", "owner_role_01"), ("owner_secret4", "owner_role_02"),
         ("owner_secret5", "owner_role_01"), ("owner_secret6", "owner_role_02"),
         ("owner_secret7", "owner_role_03")],
      Stmt.assertBlock
        "> SELECT mz_sources.name, mz_roles.name FROM mz_sources JOIN mz_roles ON mz_sources.owner_id = mz_roles.id WHERE mz_sources.name LIKE 'owner_source%' AND type = 'load-generator'"
        [("owner_source1", o1)],
      Stmt.assertBlock
        "> SELECT mz_sinks.name, mz_roles.name FROM mz_sinks JOIN mz_roles ON mz_sinks.owner_id = mz_roles.id WHERE mz_sinks.name LIKE 'owner_sink%'"
        [("owner_sink1", o1)],
      Stmt.assertBlock
        "> SELECT mz_clusters.name, mz_roles.name FROM mz_clusters JOIN mz_roles ON mz_clusters.owner_id = mz_roles.id WHERE mz_clusters.name LIKE 'owner_cluster%'"
        [("owner_cluster1", o1)],
      Stmt.assertBlock
        "> SELECT mz_cluster_replicas.name, mz_roles.name FROM mz_cluster_replicas JOIN mz_roles ON mz_cluster_replicas.owner_id = mz_roles.id WHERE mz_cluster_replicas.name LIKE 'owner_cluster_r%'"
        [("owner_cluster_r1", o1)]]
  ++ dropObjects 5
  ++ dropObjects 6
  ++ dropObjects 7

/-- `Owners.validate` (`owners.py` lines 82-201): computes `owner1` from
`base_version` and interpolates it into the script body. -/
def validateScript (v : MzVersion) : List Stmt :=
  validateBody (owner1 v)

/-- The names a command block brings into existence: the object it creates
(a cluster also creates its one replica), or the role a `CREATE ROLE`
creates. -/
def Stmt.createdNames : Stmt → List String
  | Stmt.create ObjKind.cluster i => [objName ObjKind.cluster i, replicaName i]
  | Stmt.create k i => [objName k i]
  | Stmt.createRole r => [r]
  | _ => []

/-- The names a command block drops. -/
def Stmt.droppedNames : Stmt → List String
  | Stmt.dropObj k i => [objName k i]
  | _ => []

/-- All names a script creates, in script order. -/
def scriptCreatedNames (s : List Stmt) : List String :=
  (s.map Stmt.createdNames).flatten

/-- All names a script drops, in script order. -/
def scriptDroppedNames (s : List Stmt) : List String :=
  (s.map Stmt.droppedNames).flatten

/-- The (object name, expected owner) cells of all assertion blocks of a
script, in script order. -/
def assertPairs (s : List Stmt) : List (String × String) :=
  (s.map (fun st =>
    match st with
    | Stmt.assertBlock _ rows => rows
    | _ => [])).flatten

/-- Every owner a script's assertion blocks report for the object named
`nm`, in script order. -/
def ownersReportedFor (s : List Stmt) (nm : String) : List String :=
  (assertPairs s).filterMap (fun p => if p.1 = nm then some p.2 else none)

/-- Each `create` of a script paired with the acting role of the closest
preceding `$ postgres-execute` header (`none` before the first header),
as (role, kind, discriminator), in script order. -/
def creationsUnder (s : List Stmt) : List (Option String × ObjKind × Nat) :=
  (s.foldl
    (fun (acc : Option String × List (Option String × ObjKind × Nat)) st =>
      match st with
      | Stmt.execAs r => (some r, acc.2)
      | Stmt.create k i => (acc.1, acc.2 ++ [(acc.1, k, i)])
      | _ => acc)
    (none, [])).2

/-- The discriminators of the creates a script performs while acting as
role `r`, in script order. -/
def discsCreatedUnder (s : List Stmt) (r : String) : List Nat :=
  ((creationsUnder s).filter (fun t => decide (t.1 = some r))).map (fun t => t.2.2)

/-- The roles a script creates, in script order. -/
def rolesCreated (s : List Stmt) : List String :=
  s.filterMap (fun st =>
    match st with
    | Stmt.createRole r => some r
    | _ => none)

/-- The discriminators of a script's drop statements, in script order. -/
def droppedDiscs (s : List Stmt) : List Nat :=
  s.filterMap (fun st =>
    match st with
    | Stmt.dropObj _ i => some i
    | _ => none)

/-- The kinds of a script's drop statements, in script order. -/
def droppedKinds (s : List Stmt) : List ObjKind :=
  s.filterMap (fun st =>
    match st with
    | Stmt.dropObj k _ => some k
    | _ => none)

/-- The kinds of a script's create statements, in script order. -/
def createdKinds (s : List Stmt) : List ObjKind :=
  s.filterMap (fun st =>
    match st with
    | Stmt.create k _ => some k
    | _ => none)

/-- The (kind, discriminator) of a script's creates of the expensive kinds
(source, sink, cluster), in script order. -/
def expensiveCreates (s : List Stmt) : List (ObjKind × Nat) :=
  s.filterMap (fun st =>
    match st with
    | Stmt.create ObjKind.source i => some (ObjKind.source, i)
    | Stmt.create ObjKind.sink i => some (ObjKind.sink, i)
    | Stmt.create ObjKind.cluster i => some (ObjKind.cluster, i)
    | _ => none)

/-- The name roots of everything `_create_objects` creates: the ten
non-expensive kinds, and with the expensive flag also the source, the
sink, the cluster and its replica. -/
def nameRoots (expensive : Bool) : List String :=
  ["owner_db", "owner_schema", "owner_kafka_conn", "owner_csr_conn",
   "owner_type", "owner_t", "owner_i", "owner_v", "owner_mv", "owner_secret"]
  ++ (if expensive then
        ["owner_source", "owner_sink", "owner_cluster", "owner_cluster_r"]
      else [])

theorem scriptCreatedNames_createObjects (r : String) (i : Nat) (e : Bool) :
    scriptCreatedNames (createObjects r i e)
      = (nameRoots e).map (fun p => p ++ Nat.repr i) := by
  cases e <;> rfl

/-- The names of the objects created under discriminators 1 and 2 that
`validate`'s assertion blocks report on (connections are created but never
reported; the expensive source, sink, cluster and replica exist only under
discriminator 1). -/
def preThresholdReportedNames : List String :=
  ["owner_db1", "owner_db2", "owner_schema1", "owner_schema2",
   "owner_t1", "owner_t2", "owner_i1", "owner_i2",
   "owner_v1", "owner_v2", "owner_mv1", "owner_mv2",
   "owner_type1", "owner_type2", "owner_secret1", "owner_secret2",
   "owner_source1", "owner_sink1", "owner_cluster1", "owner_cluster_r1"]

/-- C1: `validate()` selects between exactly two expected-output variants by
the single comparison `base_version < 0.48.0-dev`: every assertion row that
reports on an object of discriminators 1 or 2 shows `default_owner` when
`base_version < 0.48.0-dev` and `owner_role_01` otherwise, and each of the
twenty reported pre-threshold objects is reported exactly once, so the
chosen value reaches every assertion block reporting on them. -/
theorem validate_pre_threshold_owner_gated (v : MzVersion) :
    preThresholdReportedNames.map (fun nm => ownersReportedFor (validateScript v) nm)
      = List.replicate 20
          [if MzVersion.ltb v v048dev then "default_owner" else "owner_role_01"] := by
  rw [validateScript, owner1]
  cases MzVersion.ltb v v048dev <;> decide

/-- C2: `Owners._can_run()` holds exactly when `base_version` is at least
`0.47.0-dev` in the spec's version order; in particular `0.46.0` is
ineligible and `0.47.0` is eligible. -/
theorem canRun_iff_at_least_047dev (v : MzVersion) :
    (canRun v = true ↔ ¬ vltSpec v v047dev)
    ∧ canRun { major := 0, minor := 46, patch := 0, dev := false } = false
    ∧ canRun { major := 0, minor := 47, patch := 0, dev := false } = true := by
  refine ⟨?_, by decide, by decide⟩
  have h := mzltb_iff v v047dev
  cases hb : MzVersion.ltb v v047dev <;> rw [hb] at h <;> simp at h <;>
    simp [canRun, MzVersion.geb, hb, h]

/-- C4: `_drop_objects(i)` emits its drop statements in exactly the order
secret, materialized view, view, index, table, type, connections (registry
then kafka), schema, database; equivalently, the dropped names are the
non-expensive name roots in that order, each with the numeral of `i`. -/
theorem dropObjects_order (i : Nat) :
    droppedKinds (dropObjects i)
      = [ObjKind.secret, ObjKind.matView, ObjKind.view, ObjKind.index,
         ObjKind.table, ObjKind.typ, ObjKind.csrConn, ObjKind.kafkaConn,
         ObjKind.schema, ObjKind.database]
    ∧ scriptDroppedNames (dropObjects i)
      = ["owner_secret", "owner_mv", "owner_v", "owner_i", "owner_t",
         "owner_type", "owner_csr_conn", "owner_kafka_conn", "owner_schema",
         "owner_db"].map (fun p => p ++ Nat.repr i) :=
  ⟨rfl, rfl⟩

/-- C5: for every role and discriminator, `_drop_objects(i)` drops exactly
the names `_create_objects(r, i, expensive=False)` creates — the dropped
name list is the created name list reversed, so the two name sets coincide. -/
theorem dropObjects_matches_createObjects (r : String) (i : Nat) :
    scriptDroppedNames (dropObjects i)
      = (scriptCreatedNames (createObjects r i false)).reverse
    ∧ ∀ nm, nm ∈ scriptDroppedNames (dropObjects i)
        ↔ nm ∈ scriptCreatedNames (createObjects r i false) := by
  refine ⟨rfl, fun nm => ?_⟩
  rw [show scriptDroppedNames (dropObjects i)
        = (scriptCreatedNames (createObjects r i false)).reverse from rfl]
  exact List.mem_reverse

/-- C3 counterexample: `owner_db1` is created by `initialize()` yet no drop
of it appears anywhere in `validate()`'s script (with `base_version =
0.47.0`); `validate` only drops discriminators 5-7. -/
theorem initialize_object_never_dropped :
    "owner_db1" ∈ scriptCreatedNames
        (initializeScript { major := 0, minor := 47, patch := 0, dev := false }
          ++ (manipulateScripts
                { major := 0, minor := 47, patch := 0, dev := false }).flatten)
    ∧ "owner_db1" ∉ scriptDroppedNames
        (validateScript { major := 0, minor := 47, patch := 0, dev := false }) := by
  constructor
  · decide
  · decide

/-- C3 amended: `validate()` drops exactly the names it itself creates (the
discriminator 5-7 objects, as a permutation of its created names), and no
object created by `initialize()` or `manipulate()` (discriminators 1-4 and
the roles) is ever dropped by `validate()`. -/
theorem validate_drops_exactly_its_own (v : MzVersion) :
    List.Perm (scriptDroppedNames (validateScript v))
      (scriptCreatedNames (validateScript v))
    ∧ ∀ nm ∈ scriptCreatedNames
          (initializeScript v ++ (manipulateScripts v).flatten),
        nm ∉ scriptDroppedNames (validateScript v) := by
  have hd : scriptDroppedNames (validateScript v)
      = scriptDroppedNames
          (validateScript { major := 0, minor := 0, patch := 0, dev := false }) := rfl
  have hc : scriptCreatedNames (validateScript v)
      = scriptCreatedNames
          (validateScript { major := 0, minor := 0, patch := 0, dev := false }) := rfl
  have hm : scriptCreatedNames (initializeScript v ++ (manipulateScripts v).flatten)
      = scriptCreatedNames
          (initializeScript { major := 0, minor := 0, patch := 0, dev := false }
            ++ (manipulateScripts
                  { major := 0, minor := 0, patch := 0, dev := false }).flatten) := rfl
  rw [hd, hc, hm]
  constructor
  · decide
  · decide

theorem validate_drops_exactly_its_own_witness :
    "owner_t3" ∉ scriptDroppedNames
        (validateScript { major := 0, minor := 48, patch := 0, dev := false }) :=
  (validate_drops_exactly_its_own
      { major := 0, minor := 48, patch := 0, dev := false }).2
    "owner_t3" (by decide)

set_option maxHeartbeats 2000000 in
/-- C6: `manipulate()` returns exactly two scripts; the first creates the
discriminator-2 objects acting as `owner_role_01` (and nothing as
`owner_role_02`) and ends by creating role `owner_role_02`; the second
creates discriminator 3 as `owner_role_01` and discriminator 4 as
`owner_role_02` and ends by creating role `owner_role_03`; `validate()`
creates discriminators 5, 6, 7 as `owner_role_01`, `owner_role_02`,
`owner_role_03` respectively, and its final thirty statements drop
discriminators 5, 6 and 7 (no drop occurs earlier in the script). -/
theorem manipulate_validate_structure (v : MzVersion) :
    (∃ s1 s2, manipulateScripts v = [s1, s2]
      ∧ discsCreatedUnder s1 "owner_role_01" = List.replicate 10 2
      ∧ discsCreatedUnder s1 "owner_role_02" = []
      ∧ rolesCreated s1 = ["owner_role_02"]
      ∧ s1.getLast? = some (Stmt.createRole "owner_role_02")
      ∧ discsCreatedUnder s2 "owner_role_01" = List.replicate 10 3
      ∧ discsCreatedUnder s2 "owner_role_02" = List.replicate 10 4
      ∧ rolesCreated s2 = ["owner_role_03"]
      ∧ s2.getLast? = some (Stmt.createRole "owner_role_03"))
    ∧ discsCreatedUnder (validateScript v) "owner_role_01" = List.replicate 10 5
    ∧ discsCreatedUnder (validateScript v) "owner_role_02" = List.replicate 10 6
    ∧ discsCreatedUnder (validateScript v) "owner_role_03" = List.replicate 10 7
    ∧ validateScript v
        = (validateScript v).take 45
            ++ (dropObjects 5 ++ dropObjects 6 ++ dropObjects 7)
    ∧ droppedDiscs ((validateScript v).take 45) = [] :=
  ⟨⟨_, _, rfl, rfl, rfl, rfl, rfl, rfl, rfl, rfl, rfl⟩, rfl, rfl, rfl, rfl, rfl⟩

/-- The names of the objects created under discriminators 3 through 7 that
`validate`'s assertion blocks report on, grouped by reported kind in block
order. -/
def postThresholdReportedNames : List String :=
  ["owner_db3", "owner_db4", "owner_db5", "owner_db6", "owner_db7",
   "owner_schema3", "owner_schema4", "owner_schema5", "owner_schema6",
   "owner_schema7",
   "owner_t3", "owner_t4", "owner_t5", "owner_t6", "owner_t7",
   "owner_i3", "owner_i4", "owner_i5", "owner_i6", "owner_i7",
   "owner_v3", "owner_v4", "owner_v5", "owner_v6", "owner_v7",
   "owner_mv3", "owner_mv4", "owner_mv5", "owner_mv6", "owner_mv7",
   "owner_type3", "owner_type4", "owner_type5", "owner_type6", "owner_type7",
   "owner_secret3", "owner_secret4", "owner_secret5", "owner_secret6",
   "owner_secret7"]

set_option maxHeartbeats 2000000 in
/-- C7: for every base_version, the assertion rows for objects of
discriminators 3-7 report the concrete creating role — `owner_role_01` for
3 and 5, `owner_role_02` for 4 and 6, `owner_role_03` for 7 — and are
therefore independent of the version-gated `owner1` placeholder. -/
theorem validate_post_threshold_owners_concrete (v : MzVersion) :
    postThresholdReportedNames.map
        (fun nm => ownersReportedFor (validateScript v) nm)
      = (List.replicate 8
          [["owner_role_01"], ["owner_role_02"], ["owner_role_01"],
           ["owner_role_02"], ["owner_role_03"]]).flatten := rfl

/-- C9: `_create_objects(role, i, expensive)` emits exactly one creation
per supported kind in source order — the ten non-expensive kinds, plus,
with the expensive flag, the load-generator source, the Kafka sink and the
cluster (whose statement carries exactly one replica name) — each object
named with the numeral of `i` appended to its kind's root; and across a
whole check run the expensive creations happen exactly once, in
`initialize` under discriminator 1. -/
theorem createObjects_one_per_kind (r : String) (i : Nat) (v : MzVersion) :
    createdKinds (createObjects r i false)
      = [ObjKind.database, ObjKind.schema, ObjKind.kafkaConn, ObjKind.csrConn,
         ObjKind.typ, ObjKind.table, ObjKind.index, ObjKind.view,
         ObjKind.matView, ObjKind.secret]
    ∧ createdKinds (createObjects r i true)
      = [ObjKind.database, ObjKind.schema, ObjKind.kafkaConn, ObjKind.csrConn,
         ObjKind.typ, ObjKind.table, ObjKind.index, ObjKind.view,
         ObjKind.matView, ObjKind.secret, ObjKind.source, ObjKind.sink,
         ObjKind.cluster]
    ∧ scriptCreatedNames (createObjects r i false)
      = (nameRoots false).map (fun p => p ++ Nat.repr i)
    ∧ scriptCreatedNames (createObjects r i true)
      = (nameRoots true).map (fun p => p ++ Nat.repr i)
    ∧ (nameRoots true).count "owner_cluster_r" = 1
    ∧ expensiveCreates
        (initializeScript v ++ (manipulateScripts v).flatten ++ validateScript v)
      = [(ObjKind.source, 1), (ObjKind.sink, 1), (ObjKind.cluster, 1)]
    ∧ expensiveCreates (initializeScript v)
      = [(ObjKind.source, 1), (ObjKind.sink, 1), (ObjKind.cluster, 1)] :=
  ⟨rfl, rfl, rfl, rfl, by decide, rfl, rfl⟩

/-- C10: for a fixed `base_version` the four phase functions are
deterministic pure functions of `base_version` alone: `initialize` and
`manipulate` do not read it at all, and any two checks with equal
`base_version` agree on eligibility and on the `validate` script. -/
theorem phases_deterministic (v v' : MzVersion) :
    initializeScript v = initializeScript v'
    ∧ manipulateScripts v = manipulateScripts v'
    ∧ (v = v' → canRun v = canRun v' ∧ validateScript v = validateScript v') :=
  ⟨rfl, rfl, fun h => by rw [h]; exact ⟨rfl, rfl⟩⟩

theorem phases_deterministic_witness :
    canRun { major := 0, minor := 47, patch := 0, dev := false }
        = canRun { major := 0, minor := 47, patch := 0, dev := false }
    ∧ validateScript { major := 0, minor := 47, patch := 0, dev := false }
        = validateScript { major := 0, minor := 47, patch := 0, dev := false } :=
  (phases_deterministic
      { major := 0, minor := 47, patch := 0, dev := false }
      { major := 0, minor := 47, patch := 0, dev := false }).2.2 rfl

/-- A decimal digit character: code point between 48 and 57.  Every
character of the decimal numeral `Nat.repr` appends to a name root is one
of these, and no name root contains one. -/
def isDigitCh (c : Char) : Prop := 48 ≤ c.toNat ∧ c.toNat ≤ 57

instance (c : Char) : Decidable (isDigitCh c) := by
  unfold isDigitCh; infer_instance

theorem digitChar_toNat (n : Nat) (h : n < 10) :
    (Nat.digitChar n).toNat = n + 48 := by
  interval_cases n <;> rfl

theorem digitChar_isDigit (n : Nat) (h : n < 10) :
    isDigitCh (Nat.digitChar n) := by
  unfold isDigitCh
  rw [digitChar_toNat n h]
  omega

theorem toDigitsCore_append (b : Nat) :
    ∀ (fuel n : Nat) (ds : List Char),
      Nat.toDigitsCore b fuel n ds = Nat.toDigitsCore b fuel n [] ++ ds := by
  intro fuel
  induction fuel with
  | zero => intro n ds; simp [Nat.toDigitsCore]
  | succ f ih =>
    intro n ds
    simp only [Nat.toDigitsCore]
    by_cases h : n / b = 0
    · simp [h]
    · rw [if_neg h, if_neg h, ih (n / b) (Nat.digitChar (n % b) :: ds),
        ih (n / b) [Nat.digitChar (n % b)]]
      simp

theorem toDigitsCore_all_digits :
    ∀ (fuel n : Nat) (ds : List Char), (∀ c ∈ ds, isDigitCh c) →
      ∀ c ∈ Nat.toDigitsCore 10 fuel n ds, isDigitCh c := by
  intro fuel
  induction fuel with
  | zero => intro n ds hds; simpa [Nat.toDigitsCore] using hds
  | succ f ih =>
    intro n ds hds c hc
    simp only [Nat.toDigitsCore] at hc
    have hmem : ∀ x ∈ Nat.digitChar (n % 10) :: ds, isDigitCh x := by
      intro x hx
      rcases List.mem_cons.mp hx with h1 | h2
      · rw [h1]; exact digitChar_isDigit _ (Nat.mod_lt _ (by norm_num))
      · exact hds x h2
    by_cases h : n / 10 = 0
    · rw [if_pos h] at hc
      exact hmem c hc
    · rw [if_neg h] at hc
      exact ih (n / 10) (Nat.digitChar (n % 10) :: ds) hmem c hc

theorem toDigits_ne_nil (n : Nat) : Nat.toDigits 10 n ≠ [] := by
  unfold Nat.toDigits
  simp only [Nat.toDigitsCore]
  by_cases h : n / 10 = 0
  · simp [h]
  · rw [if_neg h, toDigitsCore_append]
    simp

theorem toDigitsCore_val (fuel : Nat) :
    ∀ n a, n < fuel →
      List.foldl (fun x c => 10 * x + (c.toNat - 48)) a
          (Nat.toDigitsCore 10 fuel n [])
        = a * 10 ^ (Nat.toDigitsCore 10 fuel n []).length + n := by
  induction fuel with
  | zero => intro n a h; exact absurd h (Nat.not_lt_zero n)
  | succ f ih =>
    intro n a h
    simp only [Nat.toDigitsCore]
    have hd : (Nat.digitChar (n % 10)).toNat = n % 10 + 48 :=
      digitChar_toNat _ (Nat.mod_lt _ (by norm_num))
    by_cases h0 : n / 10 = 0
    · rw [if_pos h0]
      simp only [List.foldl, List.length_cons, List.length_nil, hd, pow_one,
        zero_add]
      omega
    · rw [if_neg h0, toDigitsCore_append]
      have hn' : n / 10 < f := by omega
      rw [List.foldl_append, ih (n / 10) a hn', List.length_append]
      simp only [List.foldl, List.length_cons, List.length_nil, hd]
      rw [Nat.add_sub_cancel, pow_succ, ← Nat.mul_assoc]
      generalize a * 10 ^ (Nat.toDigitsCore 10 f (n / 10) []).length = Y
      omega

theorem repr_inj (m n : Nat) (h : Nat.repr m = Nat.repr n) : m = n := by
  have hdig : Nat.toDigits 10 m = Nat.toDigits 10 n := congrArg String.data h
  have hm := toDigitsCore_val (m + 1) m 0 (Nat.lt_succ_self m)
  have hn := toDigitsCore_val (n + 1) n 0 (Nat.lt_succ_self n)
  have hdig' : Nat.toDigitsCore 10 (m + 1) m []
      = Nat.toDigitsCore 10 (n + 1) n [] := hdig
  rw [hdig'] at hm
  omega

theorem append_digit_cancel :
    ∀ (p q d1 d2 : List Char),
      (∀ c ∈ p, ¬ isDigitCh c) → (∀ c ∈ q, ¬ isDigitCh c) →
      (∀ c ∈ d1, isDigitCh c) → (∀ c ∈ d2, isDigitCh c) →
      d1 ≠ [] → d2 ≠ [] →
      p ++ d1 = q ++ d2 → p = q ∧ d1 = d2 := by
  intro p
  induction p with
  | nil =>
    intro q d1 d2 hp hq hd1 hd2 h1 h2 heq
    cases q with
    | nil => exact ⟨rfl, heq⟩
    | cons c q' =>
      exfalso
      rw [List.nil_append, List.cons_append] at heq
      have hc : c ∈ d1 := by rw [heq]; exact List.mem_cons_self c _
      exact hq c (List.mem_cons_self c q') (hd1 c hc)
  | cons a p' ih =>
    intro q d1 d2 hp hq hd1 hd2 h1 h2 heq
    cases q with
    | nil =>
      exfalso
      rw [List.nil_append, List.cons_append] at heq
      have ha : a ∈ d2 := by rw [← heq]; exact List.mem_cons_self a _
      exact hp a (List.mem_cons_self a p') (hd2 a ha)
    | cons b q' =>
      rw [List.cons_append, List.cons_append] at heq
      injection heq with hab htl
      have hrec := ih q' d1 d2
        (fun c hc => hp c (List.mem_cons_of_mem a hc))
        (fun c hc => hq c (List.mem_cons_of_mem b hc))
        hd1 hd2 h1 h2 htl
      exact ⟨by rw [hab, hrec.1], hrec.2⟩

theorem rootName_inj (p q : String) (i j : Nat)
    (hp : ∀ c ∈ p.data, ¬ isDigitCh c) (hq : ∀ c ∈ q.data, ¬ isDigitCh c)
    (h : p ++ Nat.repr i = q ++ Nat.repr j) : p = q ∧ i = j := by
  have hdata : p.data ++ (Nat.repr i).data = q.data ++ (Nat.repr j).data := by
    rw [← String.data_append, ← String.data_append, h]
  have d1 : ∀ c ∈ (Nat.repr i).data, isDigitCh c :=
    toDigitsCore_all_digits (i + 1) i [] (by simp)
  have d2 : ∀ c ∈ (Nat.repr j).data, isDigitCh c :=
    toDigitsCore_all_digits (j + 1) j [] (by simp)
  have n1 : (Nat.repr i).data ≠ [] := toDigits_ne_nil i
  have n2 : (Nat.repr j).data ≠ [] := toDigits_ne_nil j
  obtain ⟨hpq, hd⟩ :=
    append_digit_cancel p.data q.data (Nat.repr i).data (Nat.repr j).data
      hp hq d1 d2 n1 n2 hdata
  exact ⟨String.ext hpq, repr_inj i j (String.ext hd)⟩

/-- C8: namespace isolation — for discriminators `i ≠ j`, any roles and any
expensive flags, no name created by `_create_objects(r, i, ·)` is also a
name created by `_create_objects(r2, j, ·)`: every name is a digit-free
kind root followed by the decimal numeral of the discriminator, and that
decomposition is unique. -/
theorem createObjects_namespace_isolation (r r2 : String) (i j : Nat)
    (e e2 : Bool) (hij : i ≠ j) :
    ∀ nm ∈ scriptCreatedNames (createObjects r i e),
      nm ∉ scriptCreatedNames (createObjects r2 j e2) := by
  intro nm hmem hmem2
  rw [scriptCreatedNames_createObjects] at hmem hmem2
  simp only [List.mem_map] at hmem hmem2
  obtain ⟨p, hp, hpe⟩ := hmem
  obtain ⟨q, hq, hqe⟩ := hmem2
  have hpq : p ++ Nat.repr i = q ++ Nat.repr j := by rw [hpe, ← hqe]
  have hroots : ∀ x ∈ nameRoots e, ∀ c ∈ x.data, ¬ isDigitCh c := by
    cases e <;> decide
  have hroots2 : ∀ x ∈ nameRoots e2, ∀ c ∈ x.data, ¬ isDigitCh c := by
    cases e2 <;> decide
  exact hij (rootName_inj p q i j (hroots p hp) (hroots2 q hq) hpq).2

theorem createObjects_namespace_isolation_witness :
    "owner_db1" ∉ scriptCreatedNames (createObjects "owner_role_01" 2 true) :=
  createObjects_namespace_isolation "owner_role_01" "owner_role_01" 1 2 true true
    (by decide) "owner_db1" (by decide)
